import Mathlib

/-!
Shallow embedding of the Fireballdrop front-end and serverless glue.

The repository is a React front-end plus two serverless handlers over a
remote smart contract.  Every effectful TypeScript function relevant to the
claims is embedded as a pure Lean function: remote reads and writes are
driven by an explicit environment record whose fields are `Except`-valued
(an `.error` models a rejected promise / thrown exception), and each
function additionally returns the list of remote calls it performed, so
that statements of the form "no remote write is submitted" are about the
returned trace.

Modelling conventions, used throughout:
* viem `getAddress` returns the EIP-55 checksummed form of a hex address.
  Two addresses are equal after checksumming exactly when they are equal up
  to letter case, so the canonical form is modelled as lowercasing.  (viem's
  throwing on malformed input is not modelled; the embedded `getAddress` is
  total, as every call site feeds it contract-provided or wallet-provided
  addresses.)
* viem `isAddress` validates `0x` + 40 hex digits; the additional EIP-55
  checksum verification of mixed-case inputs requires keccak and is not
  modelled.
* JavaScript numbers that the code only ever uses as integers are modelled
  as `Nat`/`Int`; bigints as `Nat` (all on-chain amounts are non-negative).
* A JavaScript value tested for truthiness is modelled by its concrete
  falsy case at that site (`""` for strings, `none` for optionals, `0` for
  numeric fids).
-/

/-- The zero-address sentinel used throughout the code. -/
def zeroAddress : String := "0x0000000000000000000000000000000000000000"

/-- viem `getAddress`: canonical form of an address; modelled as lowercase
(equality after checksumming coincides with equality after lowercasing). -/
def getAddress (a : String) : String := String.mk (a.data.map Char.toLower)

/-- Hexadecimal digit test for `isAddress`. -/
def isHexDigit (c : Char) : Bool :=
  c.isDigit || ('a' ≤ c && c ≤ 'f') || ('A' ≤ c && c ≤ 'F')

/-- viem `isAddress`: `0x` followed by exactly 40 hex digits (checksum
verification of mixed-case inputs is not modelled). -/
def isAddress (s : String) : Bool :=
  s.length = 42 && s.data.take 2 = ['0', 'x'] && (s.data.drop 2).all isHexDigit

/-- JavaScript `String.prototype.toUpperCase`, for the symbol special case. -/
def jsToUpper (s : String) : String := String.mk (s.data.map Char.toUpper)

/-- Strip trailing `'0'` characters (viem's `fraction.replace(/(0+)$/, '')`). -/
def dropTrailingZeros (l : List Char) : List Char :=
  (l.reverse.dropWhile (· = '0')).reverse

/-- JavaScript `String.prototype.padStart(n, '0')`. -/
def padStartZeros (l : List Char) (n : Nat) : List Char :=
  List.replicate (n - l.length) '0' ++ l

/-- viem `formatUnits` on a non-negative bigint: insert a decimal point
`decimals` digits from the right and trim trailing fractional zeros. -/
def formatUnits (value : Nat) (decimals : Nat) : String :=
  let ds := padStartZeros (Nat.repr value).data decimals
  let integer := ds.take (ds.length - decimals)
  let fraction := dropTrailingZeros (ds.drop (ds.length - decimals))
  (if integer = [] then "0" else String.mk integer) ++
    (if fraction = [] then "" else "." ++ String.mk fraction)

/-- viem `formatEther` = `formatUnits` at 18 decimals. -/
def formatEther (value : Nat) : String := formatUnits value 18

/-- `RewardType` enum from `src/types/global`. -/
inductive RewardType where
  | ETH
  | USDC
  | ERC20
  | NFT
deriving DecidableEq, Repr

/-- One remote interaction performed by the embedded code; traces of these
are returned by every embedded effectful function. -/
inductive RemoteCall where
  | readDropInfo
  | readParticipants
  | readDecimals (token : String)
  | readSymbol (token : String)
  | readBalanceOf (token owner : String)
  | readEthBalance (owner : String)
  | approveWrite (token : String) (amount : Nat)
  | nftApproveWrite (token : String) (tokenId : Nat)
  | joinDropWrite (dropId : String) (name : String) (value : Nat)
  | selectWinnersWrite (dropId : String)
  | createDropWrite
  | sponsorGameWrite
  | notifyAPICall (category : String)
  | profileFetch (addrs : List String)
  | frameFidsFetch
  | neynarSend (targetFids : List Nat)
  | refetchDrop
deriving DecidableEq, Repr

/-- The remote calls that change on-chain state (`writeContract` calls). -/
def RemoteCall.isWrite : RemoteCall → Bool
  | .approveWrite _ _ => true
  | .nftApproveWrite _ _ => true
  | .joinDropWrite _ _ _ => true
  | .selectWinnersWrite _ => true
  | .createDropWrite => true
  | .sponsorGameWrite => true
  | _ => false

/-- Discriminator for the notification-send API call. -/
def RemoteCall.isNeynarSend : RemoteCall → Bool
  | .neynarSend _ => true
  | _ => false

/-- Environment for the ERC-20 metadata reads: the outcome of
`readContract { functionName: "decimals" }` and `{ functionName: "symbol" }`
for each token address (`.error` models a rejected promise). -/
structure TokenEnv where
  decimals : String → Except String Nat
  symbol : String → Except String String

/-- `getTokenDecimals` (DropDetailPage.tsx, also duplicated in the create
page and the server frame handler): zero address short-circuits to 18,
otherwise read `decimals` and default to 18 when the read fails. -/
def getTokenDecimals (env : TokenEnv) (tokenAddress : String) :
    Nat × List RemoteCall :=
  if tokenAddress = zeroAddress then (18, [])
  else
    match env.decimals tokenAddress with
    | .ok d => (d, [.readDecimals tokenAddress])
    | .error _ => (18, [.readDecimals tokenAddress])

/-- The `symbol` lookup with its catch handler, shared by both formatters:
default to "Tokens" on failure, and rename a symbol whose upper-casing is
"FIREBALL" to "fire-ball". -/
def fetchSymbolWithDefault (env : TokenEnv) (tokenAddress : String) :
    String × List RemoteCall :=
  match env.symbol tokenAddress with
  | .ok s =>
      (if jsToUpper s = "FIREBALL" then "fire-ball" else s,
       [.readSymbol tokenAddress])
  | .error _ => ("Tokens", [.readSymbol tokenAddress])

/-- `formatRewardDisplay` (DropDetailPage.tsx): format a raw reward amount
for display.  Total: every remote-read failure degrades to a default.
(The trailing "N/A" branch is unreachable once the numeric reward-type tag
has been decoded into the four-valued enum.) -/
def formatRewardDisplay (env : TokenEnv) (rawAmount : Nat)
    (rewardType : RewardType) (rewardTokenAddress : String)
    (numWinners : Nat) (rewardTokenIds : List String) :
    String × List RemoteCall :=
  if rewardType = .ETH then
    (formatEther rawAmount ++ " ETH", [])
  else if rewardType = .USDC ∨ rewardType = .ERC20 then
    let dec := getTokenDecimals env rewardTokenAddress
    let sym := fetchSymbolWithDefault env rewardTokenAddress
    (formatUnits rawAmount dec.1 ++ " " ++ sym.1, dec.2 ++ sym.2)
  else if rewardType = .NFT then
    let count := if rewardTokenIds.length > 0 then rewardTokenIds.length
                 else numWinners
    (Nat.repr count ++ " NFT(s)", [])
  else ("N/A", [])

/-- `formatEntryFeeDisplay` (DropDetailPage.tsx): "Free" when the drop is
not paid-entry or the raw fee is zero; token formatting for USDC/ERC20
drops; otherwise ETH formatting. -/
def formatEntryFeeDisplay (env : TokenEnv) (rawAmount : Nat)
    (isPaidEntry : Bool) (dropRewardType : RewardType)
    (entryFeeTokenAddress : String) : String × List RemoteCall :=
  if !isPaidEntry || rawAmount = 0 then ("Free", [])
  else if dropRewardType = .USDC ∨ dropRewardType = .ERC20 then
    let dec := getTokenDecimals env entryFeeTokenAddress
    let sym := fetchSymbolWithDefault env entryFeeTokenAddress
    (formatUnits rawAmount dec.1 ++ " " ++ sym.1, dec.2 ++ sym.2)
  else (formatEther rawAmount ++ " ETH", [])

/-- The positional tuple returned by the contract's `getDropInfo` read,
destructured in `fetchAndSetDropInfo` (field order is the contract's).
The numeric reward-type tag is carried already decoded into the enum. -/
structure DropTuple where
  host : String
  sponsor : String
  rawEntryFee : Nat
  rawRewardAmount : Nat
  rewardToken : String
  rewardType : RewardType
  rewardTokenIds : List Nat
  maxParticipants : Nat
  currentParticipants : Nat
  isActive : Bool
  isCompleted : Bool
  isPaidEntry : Bool
  isManualSelection : Bool
  isSponsored : Bool
  numWinners : Nat
  fundingDeadline : Nat
  winners : List String
deriving DecidableEq, Repr

/-- The `ExtendedDropInfo` record assembled by `fetchAndSetDropInfo`
(`DropInfo` plus the raw bigint amounts). -/
structure DropRecord where
  id : Nat
  host : String
  sponsor : String
  entryFee : String
  rewardAmount : String
  rawEntryFee : Nat
  rawRewardAmount : Nat
  rewardToken : String
  rewardType : RewardType
  rewardTokenIds : List String
  maxParticipants : Nat
  currentParticipants : Nat
  isActive : Bool
  isCompleted : Bool
  isPaidEntry : Bool
  isManualSelection : Bool
  isSponsored : Bool
  numWinners : Nat
  fundingDeadline : Nat
  winners : List String
deriving DecidableEq, Repr

/-- A participant entry as assembled from the `getDropParticipants` read. -/
structure Participant where
  address : String
  name : String
  slot : Nat
deriving DecidableEq, Repr

/-- JavaScript `addr.slice(-4)`. -/
def sliceLast4 (s : String) : String := String.mk (s.data.drop (s.data.length - 4))

/-- The participant list construction in `fetchAndSetDropInfo`: pair each
address with its positional name (falling back to `User-<last4>` when the
name at that index is missing or empty) and its slot index. -/
def mkParticipants (addrs names : List String) : List Participant :=
  (List.range addrs.length).map fun i =>
    let addr := addrs.getD i ""
    let nm := names.getD i ""
    { address := addr
      name := if nm = "" then "User-" ++ sliceLast4 addr else nm
      slot := i }

/-- The winner-to-participant index derivation used both by
`fetchAndSetDropInfo` and `selectWinnersManually`:
`winners.map(w => participants.findIndex(p => getAddress(p) === getAddress(w))).filter(i => i !== -1)`.
`findIndex`'s `-1` sentinel plus the filter is modelled by `filterMap` over
`findIdx?`. -/
def deriveWinnerIndices (winners participantAddrs : List String) : List Nat :=
  winners.filterMap fun w =>
    participantAddrs.findIdx? fun p => getAddress p = getAddress w

/-- Environment of one `fetchAndSetDropInfo` run: outcomes of the two
contract reads plus the token-metadata reads used for formatting. -/
structure FetchEnv where
  dropInfo : Except String DropTuple
  dropParticipants : Except String (List String × List String)
  tok : TokenEnv

/-- Observable outcome of one `fetchAndSetDropInfo` run: the state-setter
calls it made (`none` = setter not called), the surfaced error message, and
the navigation it triggered.  (The lazy Farcaster profile prefetch is
best-effort display data and is not modelled.) -/
structure FetchResult where
  dropSet : Option DropRecord
  participantsSet : Option (List Participant)
  winnerIndicesSet : Option (List Nat)
  animateWinners : Bool
  cancelledForUI : Option Bool
  error : Option String
  navigatedTo : Option String
deriving Repr

/-- `fetchAndSetDropInfo` (DropDetailPage.tsx): read the drop tuple, reject
a sponsored-but-unfunded active drop (toast + navigate + throw), format the
fee and reward, read the participant list, store the assembled record, and
derive winner highlight indices. Every failure is caught and surfaced as
`error`. -/
def fetchAndSetDropInfo (env : FetchEnv) (currentDropId : Nat) : FetchResult :=
  match env.dropInfo with
  | .error e =>
      { dropSet := none, participantsSet := none, winnerIndicesSet := none
        animateWinners := false, cancelledForUI := none
        error := some e, navigatedTo := none }
  | .ok t =>
      if t.isSponsored ∧ t.sponsor = zeroAddress ∧ t.isActive then
        { dropSet := none, participantsSet := none, winnerIndicesSet := none
          animateWinners := false, cancelledForUI := none
          error := some "Unfunded sponsored game"
          navigatedTo := some "/available" }
      else
        let tokenIdsStr := t.rewardTokenIds.map Nat.repr
        let entryFeeTokenForFormatting :=
          if t.isPaidEntry ∧ (t.rewardType = .ERC20 ∨ t.rewardType = .USDC)
          then t.rewardToken else zeroAddress
        let formattedEntryFee :=
          (formatEntryFeeDisplay env.tok t.rawEntryFee t.isPaidEntry
            t.rewardType entryFeeTokenForFormatting).1
        let formattedRewardAmount :=
          (formatRewardDisplay env.tok t.rawRewardAmount t.rewardType
            t.rewardToken t.numWinners tokenIdsStr).1
        match env.dropParticipants with
        | .error e =>
            { dropSet := none, participantsSet := none
              winnerIndicesSet := none, animateWinners := false
              cancelledForUI := none, error := some e, navigatedTo := none }
        | .ok (addrs, names) =>
            let participantList := mkParticipants addrs names
            let assembled : DropRecord :=
              { id := currentDropId
                host := t.host
                sponsor := t.sponsor
                entryFee := formattedEntryFee
                rewardAmount := formattedRewardAmount
                rawEntryFee := t.rawEntryFee
                rawRewardAmount := t.rawRewardAmount
                rewardToken := t.rewardToken
                rewardType := t.rewardType
                rewardTokenIds := tokenIdsStr
                maxParticipants := t.maxParticipants
                currentParticipants := t.currentParticipants
                isActive := t.isActive
                isCompleted := t.isCompleted
                isPaidEntry := t.isPaidEntry
                isManualSelection := t.isManualSelection
                isSponsored := t.isSponsored
                numWinners := t.numWinners
                fundingDeadline := t.fundingDeadline
                winners := t.winners }
            let indices :=
              deriveWinnerIndices t.winners (participantList.map (·.address))
            let highlight := t.isCompleted ∧ t.winners.length > 0 ∧ indices ≠ []
            { dropSet := some assembled
              participantsSet := some participantList
              winnerIndicesSet := if highlight then some indices else none
              animateWinners := decide highlight
              cancelledForUI :=
                some (!t.isActive && t.isCompleted && t.winners.length = 0)
              error := none
              navigatedTo := none }

/-- The component state that the action dispatchers (`joinDrop`,
`selectWinnersManually`) read: wallet readiness flags, the connected
address (`""` models no address), the cached drop record, the route's drop
id (`""` models a missing param) and the cached participant list. -/
structure JoinCtx where
  isConnecting : Bool
  isWalletClientLoading : Bool
  hasWalletClient : Bool
  address : String
  dropInfo : Option DropRecord
  dropId : String
  participants : List Participant

/-- Environment of one `joinDrop` run: outcomes of every remote call it can
issue, plus the Farcaster SDK context used for the participant name
(`""` models a missing `displayName`/`username`). -/
structure JoinEnv where
  balanceOf : String → String → Except String Nat
  ethBalance : String → Except String Nat
  approveResult : Except String String
  approveReceipt : Except String Unit
  joinResult : Except String String
  joinReceipt : Except String Unit
  fcDisplayName : String
  fcUsername : String
  notifyResult : Except String Bool

/-- Outcome of a guarded action: a guard-path return with a toast (before
the `try` block), a caught exception from the `try` block, or success. -/
inductive ActionOutcome where
  | localError (msg : String)
  | failed (msg : String)
  | success
deriving DecidableEq, Repr

/-- JavaScript `s.split(" ")[1]`, stringified into a template the way the
join error message does it (`undefined` when there is no second word). -/
def secondWord (s : String) : String := (s.splitOn " ").getD 1 "undefined"

/-- The tail of `joinDrop`'s `try` block shared by all three entry-fee
branches: resolve the participant name from the Farcaster SDK context,
submit the `joinDrop` write, await the receipt, fire the best-effort
`game-joined` notification (failures swallowed), and refetch. -/
def joinDropSubmit (ctx : JoinCtx) (env : JoinEnv) (valueToSend : Nat)
    (acc : List RemoteCall) : ActionOutcome × List RemoteCall :=
  let participantName :=
    if env.fcDisplayName ≠ "" then env.fcDisplayName
    else if env.fcUsername ≠ "" then env.fcUsername
    else "User-" ++ sliceLast4 ctx.address
  let acc := acc ++ [.joinDropWrite ctx.dropId participantName valueToSend]
  match env.joinResult with
  | .error e => (.failed e, acc)
  | .ok _ =>
      match env.joinReceipt with
      | .error e => (.failed e, acc)
      | .ok _ =>
          (.success, acc ++ [.notifyAPICall "game-joined", .refetchDrop])

/-- The `try` block of `joinDrop`: entry-fee resolution (token pre-flight
balance check, approve, or native balance check) followed by the shared
submission tail.  Thrown errors are the catch handler's `.failed`. -/
def joinDropTx (ctx : JoinCtx) (env : JoinEnv) (di : DropRecord) :
    ActionOutcome × List RemoteCall :=
  if di.isPaidEntry && (di.rewardType = .ERC20 || di.rewardType = .USDC) then
    let tok := di.rewardToken
    let fee := di.rawEntryFee
    if fee = 0 then (.failed "Entry fee cannot be zero for a paid drop.", [])
    else
      match env.balanceOf tok ctx.address with
      | .error e => (.failed e, [.readBalanceOf tok ctx.address])
      | .ok bal =>
          if bal < fee then
            (.failed ("Insufficient " ++ secondWord di.entryFee ++
                " balance to join."), [.readBalanceOf tok ctx.address])
          else
            match env.approveResult with
            | .error e =>
                (.failed e,
                 [.readBalanceOf tok ctx.address, .approveWrite tok fee])
            | .ok _ =>
                match env.approveReceipt with
                | .error e =>
                    (.failed e,
                     [.readBalanceOf tok ctx.address, .approveWrite tok fee])
                | .ok _ =>
                    joinDropSubmit ctx env 0
                      [.readBalanceOf tok ctx.address, .approveWrite tok fee]
  else if di.isPaidEntry && di.rewardType = .ETH then
    let valueToSend := di.rawEntryFee
    if valueToSend = 0 then
      (.failed "Entry fee cannot be zero for a paid ETH drop.", [])
    else
      match env.ethBalance ctx.address with
      | .error e => (.failed e, [.readEthBalance ctx.address])
      | .ok b =>
          if b < valueToSend then
            (.failed "Insufficient ETH balance to join.",
             [.readEthBalance ctx.address])
          else joinDropSubmit ctx env valueToSend [.readEthBalance ctx.address]
  else joinDropSubmit ctx env 0 []

/-- `joinDrop` (DropDetailPage.tsx): the wallet/drop-info gate, the six
advisory eligibility guards (each a local toast + return, issuing no remote
call), then the `try` block. -/
def joinDrop (ctx : JoinCtx) (env : JoinEnv) :
    ActionOutcome × List RemoteCall :=
  if ctx.isConnecting || ctx.isWalletClientLoading || !ctx.hasWalletClient
      || ctx.address = "" || ctx.dropInfo.isNone || ctx.dropId = "" then
    (.localError "Wallet not ready or drop info missing.", [])
  else
    match ctx.dropInfo with
    | none => (.localError "Wallet not ready or drop info missing.", [])
    | some di =>
        let alreadyJoined := ctx.participants.any fun p =>
          getAddress p.address = getAddress ctx.address
        if !di.isActive then
          (.localError "This drop is no longer active.", [])
        else if di.isCompleted then
          (.localError "This drop has already ended.", [])
        else if alreadyJoined then
          (.localError "You have already joined this drop.", [])
        else if di.currentParticipants ≥ di.maxParticipants then
          (.localError "This drop is full.", [])
        else if di.isSponsored && di.sponsor = zeroAddress then
          (.localError "This sponsored game is not funded yet.", [])
        else if di.host ≠ "" && getAddress di.host = getAddress ctx.address then
          (.localError "As the host, you cannot join your own drop.", [])
        else joinDropTx ctx env di

/-- Environment of one `selectWinnersManually` run.  `decodedWinners` is
the winner list recovered from the transaction receipt's event logs (`[]`
when no log decodes), `latestDropInfo` the fallback `getDropInfo` read. -/
structure SelEnv where
  writeResult : Except String String
  receiptResult : Except String Unit
  decodedWinners : List String
  latestDropInfo : Except String DropTuple
  participantsRead : Except String (List String × List String)

/-- Outcome of `selectWinnersManually`: the wallet gate returns `[]`, the
catch handler rethrows, success returns the highlight indices (and writes
the winner list back into the local record). -/
inductive SelOutcome where
  | earlyReturn
  | thrown (msg : String)
  | selected (winners : List String) (indices : List Nat)
deriving DecidableEq, Repr

/-- Tail of `selectWinnersManually`: read the participant addresses and
derive the winner highlight indices. -/
def selectWinnersFinish (env : SelEnv) (newWinners : List String)
    (acc : List RemoteCall) : SelOutcome × List RemoteCall :=
  match env.participantsRead with
  | .error e => (.thrown e, acc ++ [.readParticipants])
  | .ok (addrs, _) =>
      (.selected newWinners (deriveWinnerIndices newWinners addrs),
       acc ++ [.readParticipants])

/-- `selectWinnersManually` (DropDetailPage.tsx): wallet gate, then inside
the `try` block the three local eligibility throws (participants ≥ winners,
active, not completed) before the `selectWinnersManually` write; after the
receipt, decode the winner list from the event logs with a `getDropInfo`
fallback, then derive highlight indices. -/
def selectWinnersManually (ctx : JoinCtx) (env : SelEnv) :
    SelOutcome × List RemoteCall :=
  if ctx.isConnecting || ctx.isWalletClientLoading || !ctx.hasWalletClient
      || ctx.address = "" || ctx.dropInfo.isNone || ctx.dropId = "" then
    (.earlyReturn, [])
  else
    match ctx.dropInfo with
    | none => (.earlyReturn, [])
    | some di =>
        if di.currentParticipants < di.numWinners then
          (.thrown "Not enough participants.", [])
        else if !di.isActive then (.thrown "Drop is not active.", [])
        else if di.isCompleted then (.thrown "Drop is already completed.", [])
        else
          match env.writeResult with
          | .error e => (.thrown e, [.selectWinnersWrite ctx.dropId])
          | .ok _ =>
              match env.receiptResult with
              | .error e => (.thrown e, [.selectWinnersWrite ctx.dropId])
              | .ok _ =>
                  if env.decodedWinners = [] then
                    match env.latestDropInfo with
                    | .error e =>
                        (.thrown e,
                         [.selectWinnersWrite ctx.dropId, .readDropInfo])
                    | .ok t =>
                        selectWinnersFinish env t.winners
                          [.selectWinnersWrite ctx.dropId, .readDropInfo]
                  else
                    selectWinnersFinish env env.decodedWinners
                      [.selectWinnersWrite ctx.dropId]

/-- A Farcaster profile as cached by the notification endpoint (`fid` is
`none` when Neynar returned `null`). -/
structure Profile where
  fid : Option Nat
  username : Option String
  displayName : Option String
deriving DecidableEq, Repr

/-- The `send-notification` request body (the `NotificationData` shape plus
the extra fields the front-end payloads attach).  `none` models an absent
JSON field. -/
structure NotificationData where
  category : String
  dropId : Option String
  hostAddress : Option String
  creatorAddress : Option String
  sponsorAddress : Option String
  participantAddress : Option String
  participantName : Option String
  winnerAddresses : Option (List String)
  targetFids : Option (List Nat)
  rewardAmount : Option String
  tokenSymbol : Option String
  maxParticipants : Option Nat
  entryFee : Option String
  prizeAmounts : Option String
  platformFee : Option String
  transactionHash : Option String
deriving Repr

/-- JavaScript truthiness of an optional string field. -/
def optStrTruthy : Option String → Bool
  | none => false
  | some s => s ≠ ""

/-- JavaScript `o || d` for an optional string field. -/
def optStrOr (o : Option String) (d : String) : String :=
  match o with
  | some s => if s = "" then d else s
  | none => d

/-- Environment of the notification endpoint: the remote identity
directory (what the Neynar bulk-by-address lookup knows, keyed by
canonical address), the registered frame users, and the outcome of the
notification-send POST. -/
structure NotifEnv where
  profileDirectory : String → Option Profile
  frameUserFids : List Nat
  neynarKeyPresent : Bool
  neynarResult : Except String Unit

/-- `fetchFarcasterProfiles` (api/send-notification): empty input or a
missing API key yield an empty result without a remote call; otherwise the
bulk lookup returns profiles keyed by the canonical (`getAddress`) form of
each requested address.  (The process-wide cache memoises idempotent
writes and is observationally the directory itself, so it is not modelled
separately; the fixed-size chunking only splits the same lookup.) -/
def fetchFarcasterProfiles (env : NotifEnv) (addresses : List String) :
    (String → Option Profile) × List RemoteCall :=
  if addresses = [] then (fun _ => none, [])
  else if !env.neynarKeyPresent then (fun _ => none, [])
  else
    let uniq := (addresses.map getAddress).dedup
    (fun a => if uniq.contains a then env.profileDirectory a else none,
     [.profileFetch uniq])

/-- `addr.slice(0, 6)...addr.slice(-4)` truncation in `getDisplayName`. -/
def addrShort (address : String) : String :=
  if address.length ≥ 10 then
    String.mk (address.data.take 6) ++ "..." ++ sliceLast4 address
  else "unknown address"

/-- `getDisplayName` (api/send-notification). -/
def getDisplayName (profile : Option Profile) (address : String) : String :=
  match profile with
  | some p =>
      let dn := (p.displayName).getD ""
      let un := (p.username).getD ""
      if dn ≠ "" ∨ un ≠ "" then (if dn ≠ "" then dn else un)
      else addrShort address
  | none => addrShort address

/-- The notification body handed to the Neynar send call. -/
structure NotifPayload where
  title : String
  body : String
  target_url : String
deriving DecidableEq, Repr

/-- `{success, message}` result of the notification logic. -/
structure HNResult where
  success : Bool
  message : String
deriving DecidableEq, Repr

/-- `sendNeynarNotification` (api/send-notification).  The missing-API-key
throw is caught by `handleNotificationLogic`'s catch handler, which is
folded in here as the corresponding `{success:false}` result; an empty
target list returns failure WITHOUT calling the notification API; a
non-ok response or network error is caught into a failure result. -/
def sendNeynarNotification (env : NotifEnv) (targetFids : List Nat)
    (_notification : NotifPayload) : HNResult × List RemoteCall :=
  if !env.neynarKeyPresent then
    ({ success := false, message := "Failed to send: Neynar API key missing" },
     [])
  else if targetFids = [] then
    ({ success := false, message := "No target FIDs provided" }, [])
  else
    match env.neynarResult with
    | .ok _ =>
        ({ success := true, message := "Notification sent" },
         [.neynarSend targetFids])
    | .error e =>
        ({ success := false, message := "Failed to send: " ++ e },
         [.neynarSend targetFids])

/-- Profile lookup by a possibly-absent raw (non-canonicalised) key, as in
`profiles[notificationData.hostAddress]`. -/
def profAt (profiles : String → Option Profile) (o : Option String) :
    Option Profile :=
  match o with
  | some s => profiles s
  | none => none

/-- JavaScript truthiness of `profile?.fid`: present and non-zero. -/
def fidTruthy (p : Option Profile) : Option Nat :=
  match p with
  | some pr =>
      match pr.fid with
      | some f => if f ≠ 0 then some f else none
      | none => none
  | none => none

/-- The catch handler of `handleNotificationLogic`. -/
def hnCatch (msg : String) (acc : List RemoteCall) :
    HNResult × List RemoteCall :=
  ({ success := false, message := "Failed to send: " ++ msg }, acc)

/-- The `addressesToFetch` accumulation of `handleNotificationLogic`. -/
def hnAddresses (nd : NotificationData) : List String :=
  (match nd.hostAddress with
   | some h => if isAddress h then [getAddress h] else []
   | none => []) ++
  (match nd.sponsorAddress with
   | some s => if isAddress s then [getAddress s] else []
   | none => []) ++
  (match nd.participantAddress with
   | some p => if isAddress p then [getAddress p] else []
   | none => []) ++
  (match nd.winnerAddresses with
   | some ws => (ws.filter isAddress).map getAddress
   | none => [])

/-- The `dropUrl` target computed by `handleNotificationLogic`. -/
def hnDropUrl (nd : NotificationData) : String :=
  match nd.dropId with
  | some d =>
      if d ≠ "" then "https://fireball-rho.vercel.app/drop/" ++ d
      else "https://fireball-rho.vercel.app"
  | none => "https://fireball-rho.vercel.app"

/-- The `rewardDisplay` string computed by `handleNotificationLogic`. -/
def hnRewardDisplay (nd : NotificationData) : String :=
  if optStrTruthy nd.tokenSymbol then
    optStrOr nd.rewardAmount "N/A" ++ " " ++ (nd.tokenSymbol).getD ""
  else optStrOr nd.rewardAmount "N/A"

/-- The `welcome` case of the category switch. -/
def hnWelcome (env : NotifEnv) (nd : NotificationData)
    (acc : List RemoteCall) : HNResult × List RemoteCall :=
  let targetFids := (nd.targetFids).getD []
  if targetFids = [] then hnCatch "Valid targetFids required" acc
  else
    let send := sendNeynarNotification env targetFids
      { title := "Welcome to Fireball! ☄️"
        body := "Join exciting drops and win rewards!"
        target_url := hnDropUrl nd }
    (send.1, acc ++ send.2)

/-- The `game-created` case of the category switch. -/
def hnGameCreated (env : NotifEnv) (nd : NotificationData)
    (profiles : String → Option Profile) (acc : List RemoteCall) :
    HNResult × List RemoteCall :=
  if ¬(optStrTruthy nd.hostAddress ∧ isAddress ((nd.hostAddress).getD ""))
  then hnCatch "Valid hostAddress required" acc
  else
    let hostDisplay :=
      getDisplayName (profAt profiles nd.hostAddress) ((nd.hostAddress).getD "")
    let targetFids := env.frameUserFids
    let send := sendNeynarNotification env targetFids
      { title := "New Fireball Drop Created! ☄️"
        body := "Drop #" ++ (nd.dropId).getD "" ++ " by " ++ hostDisplay ++
          ": " ++ hnRewardDisplay nd ++ " prize for up to " ++
          (match nd.maxParticipants with
           | some n => if n = 0 then "N/A" else Nat.repr n
           | none => "N/A") ++ " participants!"
        target_url := hnDropUrl nd }
    (send.1, acc ++ [.frameFidsFetch] ++ send.2)

/-- The `game-sponsored` case of the category switch. -/
def hnGameSponsored (env : NotifEnv) (nd : NotificationData)
    (profiles : String → Option Profile) (acc : List RemoteCall) :
    HNResult × List RemoteCall :=
  if ¬(isAddress ((nd.hostAddress).getD "") ∧
       isAddress ((nd.sponsorAddress).getD "")) then
    hnCatch "Valid host and sponsor addresses required" acc
  else
    let hostSponsoredDisplay :=
      getDisplayName (profAt profiles nd.hostAddress) ((nd.hostAddress).getD "")
    let sponsorDisplay :=
      getDisplayName (profAt profiles nd.sponsorAddress)
        ((nd.sponsorAddress).getD "")
    let targetFids := env.frameUserFids
    let send := sendNeynarNotification env targetFids
      { title := "Drop Sponsored! 🎉"
        body := "Drop #" ++ (nd.dropId).getD "" ++ " sponsored by " ++
          sponsorDisplay ++ " for " ++ hostSponsoredDisplay ++ ". Prize: " ++
          hnRewardDisplay nd ++ "."
        target_url := hnDropUrl nd }
    (send.1, acc ++ [.frameFidsFetch] ++ send.2)

/-- The `game-joined` case of the category switch: the audience is the
host's truthy fid (from a lookup keyed by the raw `hostAddress` payload
field) followed by the participant's truthy fid. -/
def hnGameJoined (env : NotifEnv) (nd : NotificationData)
    (profiles : String → Option Profile) (acc : List RemoteCall) :
    HNResult × List RemoteCall :=
  if ¬isAddress ((nd.participantAddress).getD "") then
    hnCatch "Valid participant address required" acc
  else
    let participantProfile := profAt profiles nd.participantAddress
    let participantDisplay :=
      if optStrTruthy nd.participantName then (nd.participantName).getD ""
      else getDisplayName participantProfile ((nd.participantAddress).getD "")
    let targetFids :=
      (fidTruthy (profAt profiles nd.hostAddress)).toList ++
      (fidTruthy participantProfile).toList
    let send := sendNeynarNotification env targetFids
      { title := "New Participant! 🙌"
        body := participantDisplay ++ " joined Drop #" ++ (nd.dropId).getD "" ++
          "! Prize: " ++ hnRewardDisplay nd ++ "."
        target_url := hnDropUrl nd }
    (send.1, acc ++ send.2)

/-- The `winners-selected` case of the category switch: resolve each
winner's truthy fid through the canonical-address profile map; an empty
audience is reported as failure BEFORE the notification API is called. -/
def hnWinnersSelected (env : NotifEnv) (nd : NotificationData)
    (profiles : String → Option Profile) (acc : List RemoteCall) :
    HNResult × List RemoteCall :=
  match nd.winnerAddresses with
  | none => hnCatch "Valid winner addresses required" acc
  | some ws =>
      if ws.any (fun a => ¬isAddress a) then
        hnCatch "Valid winner addresses required" acc
      else
        let winnerFids :=
          ws.filterMap fun a => fidTruthy (profiles (getAddress a))
        if winnerFids = [] then
          ({ success := false, message := "No valid FIDs for winners" }, acc)
        else
          let winnerDisplays := String.intercalate ", "
            (ws.map fun a => getDisplayName (profiles (getAddress a)) a)
          let send := sendNeynarNotification env winnerFids
            { title := "Winners Announced! 🏆"
              body := "Drop #" ++ (nd.dropId).getD "" ++ " winners: " ++
                winnerDisplays ++ ". Prize: " ++ hnRewardDisplay nd ++ "."
              target_url := hnDropUrl nd }
          (send.1, acc ++ send.2)

/-- The category switch of `handleNotificationLogic`. -/
def hnDispatch (env : NotifEnv) (nd : NotificationData)
    (profiles : String → Option Profile) (acc : List RemoteCall) :
    HNResult × List RemoteCall :=
  if nd.category = "welcome" then hnWelcome env nd acc
  else if nd.category = "game-created" then hnGameCreated env nd profiles acc
  else if nd.category = "game-sponsored" then
    hnGameSponsored env nd profiles acc
  else if nd.category = "game-joined" then hnGameJoined env nd profiles acc
  else if nd.category = "winners-selected" then
    hnWinnersSelected env nd profiles acc
  else hnCatch ("Unsupported category: " ++ nd.category) acc

/-- The dropId requirement, the profile prefetch, and the category switch
of `handleNotificationLogic`, after the creator-address fallback. -/
def handleNotificationBody (env : NotifEnv) (nd : NotificationData) :
    HNResult × List RemoteCall :=
  if (nd.category = "game-created" ∨ nd.category = "game-sponsored" ∨
      nd.category = "game-joined" ∨ nd.category = "winners-selected") ∧
      ¬optStrTruthy nd.dropId then
    hnCatch "dropId required" []
  else
    let fetched := fetchFarcasterProfiles env (hnAddresses nd)
    hnDispatch env nd fetched.1 fetched.2

/-- `handleNotificationLogic` (api/send-notification): the creator-address
fallback, the dropId requirement, the profile prefetch, then the
category-driven audience resolution and payload construction, with every
thrown error caught into a structured `{success:false}` result. -/
def handleNotificationLogic (env : NotifEnv) (nd0 : NotificationData) :
    HNResult × List RemoteCall :=
  handleNotificationBody env
    (if optStrTruthy nd0.creatorAddress ∧ ¬optStrTruthy nd0.hostAddress then
      { nd0 with hostAddress := nd0.creatorAddress }
    else nd0)

/-- The `game-joined` payload built by `joinDrop` (DropDetailPage.tsx)
after a confirmed join transaction: it carries the participant but NO
`hostAddress`/`creatorAddress` field. -/
def gameJoinedPayload (dropId participantAddress participantName
    entryFee txHash : String) : NotificationData :=
  { category := "game-joined"
    dropId := some dropId
    hostAddress := none
    creatorAddress := none
    sponsorAddress := none
    participantAddress := some participantAddress
    participantName := some participantName
    winnerAddresses := none
    targetFids := none
    rewardAmount := none
    tokenSymbol := none
    maxParticipants := none
    entryFee := some entryFee
    prizeAmounts := none
    platformFee := none
    transactionHash := some txHash }

/-- JavaScript whitespace for `trim`/number parsing. -/
def isJsSpace (c : Char) : Bool :=
  c = ' ' ∨ c = '\t' ∨ c = '\n' ∨ c = '\r'

/-- Digit-string value. -/
def natOfDigits (l : List Char) : Nat :=
  l.foldl (fun a c => 10 * a + (c.toNat - '0'.toNat)) 0

/-- JavaScript `parseInt` with no radix on the decimal strings the form
produces: skip whitespace, optional sign, longest digit prefix; `none`
models `NaN`.  (The `0x` hex-prefix acceptance of `parseInt` is not
modelled; the inputs are numeric form fields.) -/
def jsParseInt (s : String) : Option Int :=
  let l := s.data.dropWhile isJsSpace
  let sg : Int := match l with
    | '-' :: _ => -1
    | _ => 1
  let l := match l with
    | '-' :: r => r
    | '+' :: r => r
    | _ => l
  let ds := l.takeWhile Char.isDigit
  if ds = [] then none else some (sg * (natOfDigits ds : Int))

/-- Rational multiplication via `mkRat` (the library multiplication is
`irreducible`, which blocks evaluation of concrete inputs; this computes
the same reduced fraction). -/
def qMul (x y : ℚ) : ℚ := mkRat (x.num * y.num) (x.den * y.den)

/-- Rational addition via `mkRat`. -/
def qAdd (x y : ℚ) : ℚ :=
  mkRat (x.num * (y.den : Int) + y.num * (x.den : Int)) (x.den * y.den)

/-- Rational subtraction via `mkRat`. -/
def qSub (x y : ℚ) : ℚ :=
  mkRat (x.num * (y.den : Int) - y.num * (x.den : Int)) (x.den * y.den)

/-- Floor of a rational (`Int.fdiv` of the reduced fraction); used in
place of the generic floor so that concrete inputs evaluate by `decide`. -/
def qFloor (x : ℚ) : Int := Int.fdiv x.num (x.den : Int)

/-- JavaScript `Math.abs` on a rational. -/
def qAbs (x : ℚ) : ℚ := if x < 0 then -x else x

/-- JavaScript `parseFloat`, over exact rationals (the binary-float
rounding of the runtime is not modelled); `none` models `NaN`.  Rational
values are built with core `mkRat` so concrete inputs evaluate. -/
def jsParseFloat (s : String) : Option ℚ :=
  let l := s.data.dropWhile isJsSpace
  let neg : Bool := match l with
    | '-' :: _ => true
    | _ => false
  let l := match l with
    | '-' :: r => r
    | '+' :: r => r
    | _ => l
  let ip := l.takeWhile Char.isDigit
  let l := l.dropWhile Char.isDigit
  let fp := match l with
    | '.' :: r => r.takeWhile Char.isDigit
    | _ => []
  let l := match l with
    | '.' :: r => r.dropWhile Char.isDigit
    | _ => l
  if ip = [] ∧ fp = [] then none
  else
    let scale := Nat.pow 10 fp.length
    let mant : ℚ := mkRat (natOfDigits ip * scale + natOfDigits fp) scale
    let expo : Int :=
      match l with
      | 'e' :: r | 'E' :: r =>
          let es : Int := match r with
            | '-' :: _ => -1
            | _ => 1
          let r2 := match r with
            | '-' :: r2 => r2
            | '+' :: r2 => r2
            | _ => r
          let ed := r2.takeWhile Char.isDigit
          if ed = [] then 0 else es * (natOfDigits ed : Int)
      | _ => 0
    let scaled : ℚ :=
      if 0 ≤ expo then qMul mant (mkRat (Nat.pow 10 expo.toNat) 1)
      else qMul mant (mkRat 1 (Nat.pow 10 (-expo).toNat))
    some (if neg then -scaled else scaled)

/-- JavaScript `String.prototype.trim`. -/
def jsTrim (s : String) : String :=
  String.mk (((s.data.dropWhile isJsSpace).reverse.dropWhile isJsSpace).reverse)

/-- `rewardTokenIdsString.split(",").map(trim).filter(Boolean)`. -/
def splitTokenIds (s : String) : List String :=
  ((s.splitOn ",").map jsTrim).filter (· ≠ "")

/-- JavaScript `x <= 0` where `x` may be `NaN` (`none`): `NaN` compares
false. -/
def qLeZero (o : Option ℚ) : Bool :=
  match o with
  | some x => x ≤ 0
  | none => false

/-- JavaScript `Math.abs(a - b) > eps` where either side may be `NaN`. -/
def absDiffGt (a b : Option ℚ) (eps : ℚ) : Bool :=
  match a, b with
  | some x, some y => eps < qAbs (qSub x y)
  | _, _ => false

/-- `Number.prototype.toFixed(10)` re-parsed by `parseFloat`: rounding to
ten decimal places (half-up; the binary-float tie behaviour of the runtime
is not modelled). -/
def qToFixed10 (x : ℚ) : ℚ :=
  mkRat (qFloor (qAdd (qMul x (mkRat 10000000000 1)) (mkRat 1 2)))
    10000000000

/-- The fixed USDC address on Base (CreateDropPage). -/
def USDC_BASE_ADDRESS : String := "0x833589fCD6eDb6E08f4c7C32D4f71b54bdA02913"

/-- `fundingType` state of the create form. -/
inductive FundingType where
  | hostFunded
  | participantPaid
deriving DecidableEq, Repr

/-- `selectionType` state of the create form. -/
inductive SelectionType where
  | manual
  | automatic
deriving DecidableEq, Repr

/-- The create-form state read by `validateInputs`/`handleSubmit`.
`maxParticipants` is the raw text-field string; `numWinners` is the
number-typed select state (only ever set to an integer). -/
structure CreateForm where
  fundingType : FundingType
  isSponsoredGame : Bool
  selectedRewardType : RewardType
  entryFeeString : String
  rewardAmountString : String
  rewardTokenAddress : String
  rewardTokenIdsString : String
  maxParticipants : String
  numWinners : Int

/-- The reward-type-specific section of `validateInputs` (CreateDropPage):
NFT shape checks, the fixed USDC address, token-address validity, and the
positivity checks on the fee/reward strings. -/
def validateTypeBranch (f : CreateForm) (currentNumWinners : Int)
    (isActuallyPaidEntry : Bool) : Bool :=
  if f.selectedRewardType = .NFT then
    if isActuallyPaidEntry then false
    else if f.rewardTokenAddress = "" ∨ ¬isAddress f.rewardTokenAddress then
      false
    else
      let tokenIds := splitTokenIds f.rewardTokenIdsString
      if (tokenIds.length : Int) ≠ currentNumWinners then false
      else if tokenIds.any (fun id =>
          match jsParseInt id with
          | none => true
          | some v => v < 0) then false
      else true
  else if f.selectedRewardType = .USDC then
    if getAddress f.rewardTokenAddress ≠ getAddress USDC_BASE_ADDRESS then
      false
    else if isActuallyPaidEntry then
      ¬(f.entryFeeString = "" ∨ qLeZero (jsParseFloat f.entryFeeString))
    else
      ¬(f.rewardAmountString = "" ∨ qLeZero (jsParseFloat f.rewardAmountString))
  else if f.selectedRewardType = .ERC20 then
    if f.rewardTokenAddress = "" ∨ ¬isAddress f.rewardTokenAddress then false
    else if isActuallyPaidEntry then
      ¬(f.entryFeeString = "" ∨ qLeZero (jsParseFloat f.entryFeeString))
    else
      ¬(f.rewardAmountString = "" ∨ qLeZero (jsParseFloat f.rewardAmountString))
  else if f.selectedRewardType = .ETH then
    if isActuallyPaidEntry then
      ¬(f.entryFeeString = "" ∨ qLeZero (jsParseFloat f.entryFeeString))
    else
      ¬(f.rewardAmountString = "" ∨ qLeZero (jsParseFloat f.rewardAmountString))
  else true

/-- `validateInputs` (CreateDropPage): participant-cap gate, winner-count
gate, reward-type-specific checks, then the paid-entry reward-consistency
check. -/
def validateInputs (f : CreateForm) : Bool :=
  match jsParseInt f.maxParticipants with
  | none => false
  | some participants =>
      if participants ≤ 0 ∨ participants > 100 then false
      else if f.numWinners ≤ 0 ∨ f.numWinners > 3 ∨
          f.numWinners ≥ participants then false
      else
        let isActuallyPaidEntry := f.fundingType = .participantPaid
        if ¬validateTypeBranch f f.numWinners isActuallyPaidEntry then false
        else if isActuallyPaidEntry ∧ f.selectedRewardType ≠ .NFT then
          let fee := jsParseFloat f.entryFeeString
          let calculatedReward :=
            fee.map fun x => qToFixed10 (qMul x (mkRat participants 1))
          let ra := jsParseFloat f.rewardAmountString
          if f.rewardAmountString = "" ∨
              absDiffGt ra calculatedReward (mkRat 1 1000000000) ∨
              qLeZero ra then false
          else true
        else true

/-- viem decimal-string shape `^(-?)([0-9]*)\.?([0-9]*)$` for `parseUnits`. -/
def decimalShape (l : List Char) : Option (Bool × List Char × List Char) :=
  let (neg, l) := match l with
    | '-' :: r => (true, r)
    | _ => (false, l)
  let ip := l.takeWhile Char.isDigit
  match l.dropWhile Char.isDigit with
  | [] => some (neg, ip, [])
  | '.' :: r =>
      if r.dropWhile Char.isDigit = [] then some (neg, ip, r.takeWhile Char.isDigit)
      else none
  | _ => none

/-- viem `parseUnits`: scale a decimal string to an integer at `decimals`
decimals, rounding a too-long fraction half-up; `none` models the thrown
`InvalidDecimalNumberError`. -/
def parseUnits (value : String) (decimals : Nat) : Option Int :=
  match decimalShape value.data with
  | none => none
  | some (neg, ip, fp) =>
      let fp := dropTrailingZeros fp
      let scale := Nat.pow 10 fp.length
      let mag : ℚ :=
        qMul (mkRat (natOfDigits ip * scale + natOfDigits fp) scale)
          (mkRat (Nat.pow 10 decimals) 1)
      let r : Int := qFloor (qAdd mag (mkRat 1 2))
      some (if neg then -r else r)

/-- viem `parseEther`. -/
def parseEther (value : String) : Option Int := parseUnits value 18

/-- JavaScript `BigInt(string)` on a trimmed token-id string: whitespace,
optional sign, digits; empty means 0; anything else throws (`none`). -/
def jsBigInt (s : String) : Option Int :=
  let l := s.data.dropWhile isJsSpace
  let l := l.reverse.dropWhile isJsSpace |>.reverse
  let (sg, l) := match l with
    | '-' :: r => ((-1 : Int), r)
    | '+' :: r => ((1 : Int), r)
    | _ => ((1 : Int), l)
  if l = [] then some 0
  else if l.all Char.isDigit then some (sg * (natOfDigits l : Int))
  else none

/-- The component state read by `handleSubmit` (CreateDropPage). -/
structure SubmitCtx where
  isConnected : Bool
  hasWalletClient : Bool
  address : String
  form : CreateForm
  selectionType : SelectionType

/-- Environment of one `handleSubmit` run. -/
structure SubmitEnv where
  tok : TokenEnv
  approveResult : Except String String
  approveReceipt : Except String Unit
  nftApprove : Nat → Except String String
  nftApproveReceipt : Nat → Except String Unit
  writeResult : Except String String
  writeReceipt : Except String Unit
  parsedDropId : Option Nat
  notifyResult : Except String Bool

/-- The final `createDrop`/`sponsorGame` write, receipt wait, `DropCreated`
event parse, best-effort notification and navigation shared by every branch
of `handleSubmit`'s `try` block. -/
def submitCreate (ctx : SubmitCtx) (env : SubmitEnv)
    (acc : List RemoteCall) : ActionOutcome × List RemoteCall :=
  let callIsSponsored :=
    ctx.form.fundingType = .hostFunded ∧ ctx.form.isSponsoredGame
  let acc := acc ++
    [if callIsSponsored then RemoteCall.sponsorGameWrite
     else RemoteCall.createDropWrite]
  match env.writeResult with
  | .error e => (.failed e, acc)
  | .ok _ =>
      match env.writeReceipt with
      | .error e => (.failed e, acc)
      | .ok _ =>
          let category :=
            if callIsSponsored then "game-sponsored" else "game-created"
          (.success, acc ++ [.notifyAPICall category])

/-- The `try` block of `handleSubmit` (CreateDropPage): resolve the token
address, parse the amounts (a malformed decimal throws), run the
host-funded approval writes, then create the drop. -/
def handleSubmitTx (ctx : SubmitCtx) (env : SubmitEnv) :
    ActionOutcome × List RemoteCall :=
  let f := ctx.form
  let isActuallyPaidEntry := f.fundingType = .participantPaid
  match jsParseInt f.maxParticipants with
  | none => (.failed "Cannot convert NaN to a BigInt", [])
  | some _participantsCount =>
      let effectiveRewardTokenAddr :=
        if f.selectedRewardType = .USDC then USDC_BASE_ADDRESS
        else if f.selectedRewardType = .ERC20 ∨ f.selectedRewardType = .NFT
        then getAddress f.rewardTokenAddress
        else zeroAddress
      if f.selectedRewardType = .ETH then
        let entryFee? :=
          if isActuallyPaidEntry then parseEther f.entryFeeString else some 0
        match entryFee? with
        | none => (.failed "Number is not a valid decimal number.", [])
        | some _ =>
            match parseEther f.rewardAmountString with
            | none => (.failed "Number is not a valid decimal number.", [])
            | some _ => submitCreate ctx env []
      else if f.selectedRewardType = .USDC ∨ f.selectedRewardType = .ERC20
      then
        let dec := getTokenDecimals env.tok effectiveRewardTokenAddr
        let entryFee? :=
          if isActuallyPaidEntry then parseUnits f.entryFeeString dec.1
          else some 0
        match entryFee? with
        | none => (.failed "Number is not a valid decimal number.", dec.2)
        | some _ =>
            match parseUnits f.rewardAmountString dec.1 with
            | none => (.failed "Number is not a valid decimal number.", dec.2)
            | some rewardAmount =>
                if f.fundingType = .hostFunded ∧ ¬f.isSponsoredGame then
                  let acc := dec.2 ++
                    [.approveWrite effectiveRewardTokenAddr
                      rewardAmount.toNat]
                  match env.approveResult with
                  | .error e => (.failed e, acc)
                  | .ok _ =>
                      match env.approveReceipt with
                      | .error e => (.failed e, acc)
                      | .ok _ => submitCreate ctx env acc
                else submitCreate ctx env dec.2
      else
        let ids? := ((f.rewardTokenIdsString.splitOn ",").map jsTrim).mapM
          jsBigInt
        match ids? with
        | none => (.failed "Cannot convert to a BigInt", [])
        | some ids =>
            if f.fundingType = .hostFunded ∧ ¬f.isSponsoredGame then
              nftApprovalLoop ctx env effectiveRewardTokenAddr
                (ids.map Int.toNat) []
            else submitCreate ctx env []
where
  /-- The sequential per-token-id ERC-721 approval loop. -/
  nftApprovalLoop (ctx : SubmitCtx) (env : SubmitEnv) (token : String) :
      List Nat → List RemoteCall → ActionOutcome × List RemoteCall
    | [], acc => submitCreate ctx env acc
    | tid :: rest, acc =>
        let acc := acc ++ [.nftApproveWrite token tid]
        match env.nftApprove tid with
        | .error e => (.failed e, acc)
        | .ok _ =>
            match env.nftApproveReceipt tid with
            | .error e => (.failed e, acc)
            | .ok _ => nftApprovalLoop ctx env token rest acc

/-- `handleSubmit` (CreateDropPage): wallet gate, then the local
validation gate (aborting with a toast before any remote interaction),
then the `try` block. -/
def handleSubmit (ctx : SubmitCtx) (env : SubmitEnv) :
    ActionOutcome × List RemoteCall :=
  if !ctx.isConnected || !ctx.hasWalletClient || ctx.address = "" then
    (.localError "Please connect your wallet.", [])
  else if ¬validateInputs ctx.form then
    (.localError "Form errors detected.", [])
  else handleSubmitTx ctx env

/-- The server's base URL (the `APP_URL` env default). -/
def APP_BASE_URL : String := "https://fireball-rho.vercel.app"

/-- An HTTP response as produced by the serverless handlers. -/
structure HttpResponse where
  status : Nat
  body : String
deriving DecidableEq, Repr

/-- Environment of one frame-handler request: the `dist/index.html` read
(`.error` models a thrown `readFileSync`) and the contract read used for
the reward description.  A missing server env var throws inside
`getMinimalDropDataForFrame`'s catch-all, so it is folded into
`dropInfo = .error`. -/
structure FrameEnv where
  indexHtml : Except String String
  dropInfo : Except String DropTuple
  tok : TokenEnv

/-- `formatRewardDisplayServer` (api frame handler) is a line-for-line port
of `formatRewardDisplay` from DropDetailPage.tsx. -/
def formatRewardDisplayServer := formatRewardDisplay

/-- `getMinimalDropDataForFrame`: the `getDropInfo` read plus reward
formatting, with a catch-all returning `null`. -/
def getMinimalDropDataForFrame (env : FrameEnv) :
    Option String × List RemoteCall :=
  match env.dropInfo with
  | .error _ => (none, [.readDropInfo])
  | .ok t =>
      let fm := formatRewardDisplayServer env.tok t.rawRewardAmount
        t.rewardType t.rewardToken t.numWinners (t.rewardTokenIds.map Nat.repr)
      (some fm.1, .readDropInfo :: fm.2)

/-- `serveOriginalIndex`: serve the unmodified `dist/index.html`; if even
that read fails, a 500 "Critical error" response. -/
def serveOriginalIndex (env : FrameEnv) : HttpResponse :=
  match env.indexHtml with
  | .ok html => { status := 200, body := html }
  | .error e =>
      { status := 500, body := "Critical error serving fallback: " ++ e }

/-- The handler's drop-id validation:
`typeof dropId === "string" && /^\d+$/.test(dropId)`. -/
def isValidDropIdParam (q : Option String) : Bool :=
  match q with
  | some s => s ≠ "" && s.data.all Char.isDigit
  | none => false

/-- JavaScript regex `\w`. -/
def isWordChar (c : Char) : Bool := c.isAlphanum || c = '_'

/-- Lower-cased characters of the keyword the workaround looks for. -/
def fireballChars : List Char := "fireball".data

/-- Case-insensitive match of "fireball" at the head of the list. -/
def startsWithFireball (l : List Char) : Bool :=
  (l.take 8).map Char.toLower = fireballChars

/-- The `\b` boundary before a match position. -/
def boundaryBefore : Option Char → Bool
  | none => true
  | some p => !isWordChar p

/-- The `\b` boundary after a match. -/
def boundaryAfter : List Char → Bool
  | [] => true
  | d :: _ => !isWordChar d

/-- `/\bfireball\b/i.test`: some case-insensitive whole-word occurrence. -/
def hasFireballWordAux (prev : Option Char) : List Char → Bool
  | [] => false
  | c :: rest =>
      (startsWithFireball (c :: rest) && boundaryBefore prev &&
        boundaryAfter ((c :: rest).drop 8)) ||
      hasFireballWordAux (some c) rest

/-- `/\bfireball\b/i.test(s)`. -/
def hasFireballWord (s : String) : Bool := hasFireballWordAux none s.data

/-- `s.replace(/fireball/gi, "fireb​all")`, fuel-indexed (the fuel is
instantiated with the string length, an upper bound on the scan steps). -/
def replaceFireballAux : Nat → List Char → List Char
  | 0, l => l
  | _ + 1, [] => []
  | fuel + 1, c :: rest =>
      if startsWithFireball (c :: rest) then
        ("fireb​all").data ++ replaceFireballAux fuel ((c :: rest).drop 8)
      else c :: replaceFireballAux fuel rest

/-- The zero-width-space keyword workaround replacement. -/
def replaceAllFireball (s : String) : String :=
  String.mk (replaceFireballAux s.data.length s.data)

/-- Drop through the first `'>'` (the `[^>]*>` tail of the meta regex). -/
def dropThroughGt (l : List Char) : List Char :=
  (l.dropWhile (· ≠ '>')).drop 1

/-- Remove every case-insensitive occurrence of `pat` followed by
`[^>]*>` (the existing-meta-tag strip; `\s+` is modelled as the single
space these tags are emitted with). -/
def stripTagAux (pat : List Char) : Nat → List Char → List Char
  | 0, l => l
  | _ + 1, [] => []
  | fuel + 1, c :: rest =>
      if (List.take pat.length (c :: rest)).map Char.toLower = pat &&
          (List.drop pat.length (c :: rest)).any (· = '>') then
        stripTagAux pat fuel (dropThroughGt (List.drop pat.length (c :: rest)))
      else c :: stripTagAux pat fuel rest

/-- Lower-cased pattern of `/<meta\s+name="fc:frame"[^>]*>/gi`. -/
def fcFramePat : List Char := ("<meta name=\"fc:frame\"").data

/-- Lower-cased pattern of `/<meta\s+name="fc:frame-default-for-spa"[^>]*>/gi`. -/
def fcFrameDefaultPat : List Char :=
  ("<meta name=\"fc:frame-default-for-spa\"").data

/-- The two strip passes run on the HTML before injection. -/
def stripFcFrameMeta (html : String) : String :=
  let l1 := stripTagAux fcFramePat html.data.length html.data
  String.mk (stripTagAux fcFrameDefaultPat l1.length l1)

/-- JavaScript `s.replace(pattern, repl)` with a plain-string pattern:
first occurrence only. -/
def replaceFirst (s pat repl : String) : String :=
  match s.splitOn pat with
  | [] => s
  | [_] => s
  | x :: rest => x ++ repl ++ String.intercalate pat rest

/-- JavaScript `s.includes(pat)`. -/
def includesSubstr (s pat : String) : Bool := (s.splitOn pat).length ≥ 2

/-- JavaScript `s.substring(0, n)`. -/
def jsSubstringTo (s : String) (n : Nat) : String := String.mk (s.data.take n)

/-- The JSON string escaping `JSON.stringify` applies to the title. -/
def jsonEscape (s : String) : String :=
  String.mk ((s.data.map fun c =>
    if c = '"' then ['\\', '"']
    else if c = '\\' then ['\\', '\\']
    else [c]).flatten)

/-- `content.replace(/"/g, "&quot;")`. -/
def escapeQuot (s : String) : String :=
  String.mk ((s.data.map fun c =>
    if c = '"' then ("&quot;").data else [c]).flatten)

/-- The frame button title. -/
def frameButtonTitle (dropId prize : String) : String :=
  "View Drop #" ++ dropId ++ " - " ++ prize ++ "!"

/-- `JSON.stringify` of the `fc:frame` meta content object. -/
def fcFrameMetaContent (dropId prize : String) : String :=
  "\x7b\"version\":\"next\",\"imageUrl\":\"" ++ APP_BASE_URL ++
    "/image.png\",\"button\":\x7b\"title\":\"" ++
    jsonEscape (jsSubstringTo (frameButtonTitle dropId prize) 256) ++
    "\",\"action\":\x7b\"type\":\"launch_frame\",\"url\":\"" ++ APP_BASE_URL ++
    "/drop/" ++ dropId ++ "\",\"name\":\"Fireball☄️\",\"splashImageUrl\":\"" ++
    APP_BASE_URL ++
    "/logo.jpg\",\"splashBackgroundColor\":\"#1f2937\"\x7d\x7d\x7d"

/-- The injected `fc:frame` meta tag. -/
def fcFrameMetaTag (dropId prize : String) : String :=
  "<meta name=\"fc:frame\" content=\"" ++
    escapeQuot (fcFrameMetaContent dropId prize) ++ "\" />"

/-- The injected OpenGraph meta tags. -/
def ogMetaTags (dropId prize : String) : String :=
  "\n      <meta property=\"og:title\" content=\"Fireball Drop #" ++ dropId ++
    " - " ++ prize ++ "\" />\n      <meta property=\"og:image\" content=\"" ++
    APP_BASE_URL ++
    "/image.png\" />\n      <meta property=\"og:description\" content=\"Join Fireball Drop #" ++
    dropId ++ " on Fireball!\"/>\n      <meta property=\"og:url\" content=\"" ++
    APP_BASE_URL ++ "/drop/" ++ dropId ++ "\" />\n    "

/-- The placeholder comment the build leaves in `dist/index.html`. -/
def fcPlaceholder : String := "<!--FC_FRAME_META_TAG_PLACEHOLDER-->"

/-- Meta-tag injection into the HTML page. -/
def injectMeta (html dropId prize : String) : String :=
  let html := stripFcFrameMeta html
  let metaTagsToInject :=
    "\n" ++ fcFrameMetaTag dropId prize ++ "\n" ++ ogMetaTags dropId prize ++ "\n"
  if includesSubstr html fcPlaceholder then
    replaceFirst html fcPlaceholder metaTagsToInject
  else replaceFirst html "</head>" (metaTagsToInject ++ "</head>")

/-- `handler` (api frame handler): reject a malformed drop id with the
fallback page and no remote call; otherwise read the drop for a prize
description (failure degrades to a generic description), read and inject
into `dist/index.html`; any throw inside the `try` (in this model only the
HTML read) falls back to `serveOriginalIndex`. -/
def handler (env : FrameEnv) (dropIdQ : Option String) :
    HttpResponse × List RemoteCall :=
  if ¬isValidDropIdParam dropIdQ then (serveOriginalIndex env, [])
  else
    let dropId := dropIdQ.getD ""
    let fetched := getMinimalDropDataForFrame env
    let prizeDescription :=
      match fetched.1 with
      | some s => s
      | none => "an exciting prize"
    let prizeDescription :=
      if hasFireballWord prizeDescription then
        replaceAllFireball prizeDescription
      else prizeDescription
    match env.indexHtml with
    | .error _ => (serveOriginalIndex env, fetched.2)
    | .ok html =>
        ({ status := 200, body := injectMeta html dropId prizeDescription },
         fetched.2)



/-- A token environment in which every metadata read fails. -/
def failTokenEnv : TokenEnv :=
  { decimals := fun _ => .error "read reverted"
    symbol := fun _ => .error "read reverted" }

/-- A concrete drop whose host is the connected wallet (up to case). -/
def c2Drop : DropRecord :=
  { id := 1, host := "0xAA", sponsor := zeroAddress, entryFee := "Free"
    rewardAmount := "1 ETH", rawEntryFee := 0, rawRewardAmount := 1
    rewardToken := zeroAddress, rewardType := .ETH, rewardTokenIds := []
    maxParticipants := 10, currentParticipants := 0, isActive := true
    isCompleted := false, isPaidEntry := false, isManualSelection := true
    isSponsored := false, numWinners := 1, fundingDeadline := 0
    winners := [] }

/-- A ready wallet context for the host of `c2Drop`. -/
def c2Ctx : JoinCtx :=
  { isConnecting := false, isWalletClientLoading := false
    hasWalletClient := true, address := "0xaa", dropInfo := some c2Drop
    dropId := "1", participants := [] }

/-- A join environment in which every remote call would succeed. -/
def okJoinEnv : JoinEnv :=
  { balanceOf := fun _ _ => .ok 1000000, ethBalance := fun _ => .ok 1000000
    approveResult := .ok "0xapprove", approveReceipt := .ok ()
    joinResult := .ok "0xjoin", joinReceipt := .ok ()
    fcDisplayName := "", fcUsername := "", notifyResult := .ok true }

/-- A drop with two required winners but one participant. -/
def c5Drop : DropRecord :=
  { c2Drop with host := "0xHOST", currentParticipants := 1, numWinners := 2 }

/-- A ready wallet context viewing `c5Drop`. -/
def c5Ctx : JoinCtx :=
  { c2Ctx with dropInfo := some c5Drop }

/-- A selection environment in which every remote call would succeed. -/
def okSelEnv : SelEnv :=
  { writeResult := .ok "0xsel", receiptResult := .ok ()
    decodedWinners := [], latestDropInfo := .error "unused"
    participantsRead := .ok ([], []) }

/-- A concrete sponsored, unfunded, active drop tuple. -/
def c6Tuple : DropTuple :=
  { host := "0xhost", sponsor := zeroAddress, rawEntryFee := 0
    rawRewardAmount := 10, rewardToken := zeroAddress, rewardType := .ETH
    rewardTokenIds := [], maxParticipants := 5, currentParticipants := 0
    isActive := true, isCompleted := false, isPaidEntry := false
    isManualSelection := false, isSponsored := true, numWinners := 1
    fundingDeadline := 99, winners := [] }

/-- A fetch environment returning `c6Tuple`. -/
def c6Env : FetchEnv :=
  { dropInfo := .ok c6Tuple, dropParticipants := .ok ([], [])
    tok := failTokenEnv }

/-- A winner address no profile resolves for. -/
def c3WinnerAddr : String := "0xcccccccccccccccccccccccccccccccccccccccc"

/-- A notification environment with an empty identity directory. -/
def c3Env : NotifEnv :=
  { profileDirectory := fun _ => none, frameUserFids := [1, 2]
    neynarKeyPresent := true, neynarResult := .ok () }

/-- A winners-selected request whose only winner resolves to no FID. -/
def c3Data : NotificationData :=
  { category := "winners-selected", dropId := some "7", hostAddress := none
    creatorAddress := none, sponsorAddress := none, participantAddress := none
    participantName := none, winnerAddresses := some [c3WinnerAddr]
    targetFids := none, rewardAmount := some "0.1", tokenSymbol := some "ETH"
    maxParticipants := none, entryFee := none, prizeAmounts := some "0.1 ETH"
    platformFee := some "0.005", transactionHash := some "0xabc" }

/-- The drop host's wallet address (canonical form). -/
def c4HostAddr : String := "0xaaaaaaaaaaaaaaaaaaaaaaaaaaaaaaaaaaaaaaaa"

/-- The joining participant's wallet address (canonical form). -/
def c4PartAddr : String := "0xbbbbbbbbbbbbbbbbbbbbbbbbbbbbbbbbbbbbbbbb"

/-- A directory in which BOTH the host and the participant resolve to
numeric FIDs (7 and 9). -/
def c4Env : NotifEnv :=
  { profileDirectory := fun a =>
      if a = c4HostAddr then
        some { fid := some 7, username := some "host", displayName := some "The Host" }
      else if a = c4PartAddr then
        some { fid := some 9, username := some "alice", displayName := some "Alice" }
      else none
    frameUserFids := [], neynarKeyPresent := true, neynarResult := .ok () }

/-- The join flow's payload for the participant's confirmed join. -/
def c4Payload : NotificationData :=
  gameJoinedPayload "1" c4PartAddr "Alice" "Free" "0xhash"

/-- A frame environment whose static page read throws. -/
def c8FailEnv : FrameEnv :=
  { indexHtml := .error "ENOENT: no such file dist/index.html"
    dropInfo := .error "rpc unavailable", tok := failTokenEnv }

/-- A frame environment with a readable page but a failing drop read. -/
def c8OkEnv : FrameEnv :=
  { indexHtml := .ok "<html><head></head></html>"
    dropInfo := .error "rpc unavailable", tok := failTokenEnv }

/-- A create form matching the spec's end-to-end example: participant-paid
ETH drop, fee 0.01, 10 participants, auto-computed reward 0.1. -/
def c10GoodForm : CreateForm :=
  { fundingType := .participantPaid, isSponsoredGame := false
    selectedRewardType := .ETH, entryFeeString := "0.01"
    rewardAmountString := "0.1", rewardTokenAddress := ""
    rewardTokenIdsString := "", maxParticipants := "10", numWinners := 2 }

/-- The same form with too many winners (4 > 3, and 4 >= cap would not
even be needed). -/
def c10BadForm : CreateForm :=
  { c10GoodForm with numWinners := 4 }

/-- A connected submit context over `c10BadForm`. -/
def c10BadCtx : SubmitCtx :=
  { isConnected := true, hasWalletClient := true, address := "0xaa"
    form := c10BadForm, selectionType := .manual }

/-- A connected submit context over `c10GoodForm`. -/
def c10GoodCtx : SubmitCtx :=
  { c10BadCtx with form := c10GoodForm }

/-- A submit environment in which every remote call would succeed. -/
def c10Env : SubmitEnv :=
  { tok := failTokenEnv, approveResult := .ok "0xapp"
    approveReceipt := .ok (), nftApprove := fun _ => .ok "0xnft"
    nftApproveReceipt := fun _ => .ok (), writeResult := .ok "0xcreate"
    writeReceipt := .ok (), parsedDropId := some 5, notifyResult := .ok true }

/-! ## Claim theorems -/

/-- Projection of `getAddress` onto character data. -/
theorem getAddress_data (a : String) :
    (getAddress a).data = a.data.map Char.toLower := rfl

/-- An address whose canonical form is empty is empty. -/
theorem eq_empty_of_getAddress_eq_empty {a : String}
    (h : getAddress a = "") : a = "" := by
  have hd : (getAddress a).data = ("" : String).data := congrArg String.data h
  rw [getAddress_data] at hd
  have hnil : a.data = [] := List.map_eq_nil_iff.mp hd
  exact String.ext (by simpa using hnil)

/-- C1: for every token address, a failing decimals lookup makes the
formatters use 18 decimals (whatever the symbol read does), a failing
symbol lookup makes them use the default symbol "Tokens" (whatever the
decimals read does), and when both fail the reward and entry-fee display
strings are exactly the 18-decimal rendering suffixed "Tokens"; the
formatters are total functions of the read outcomes, so no exception from
these remote reads reaches the caller. -/
theorem c1_formatter_defaults_on_lookup_failure (env : TokenEnv)
    (addr : String) (raw numWinners : Nat) (ids : List String)
    (rt : RewardType) (hrt : rt = .USDC ∨ rt = .ERC20) :
    (∀ ed, env.decimals addr = .error ed →
      (getTokenDecimals env addr).1 = 18) ∧
    (∀ es, env.symbol addr = .error es →
      (fetchSymbolWithDefault env addr).1 = "Tokens") ∧
    (∀ es d, env.symbol addr = .error es → env.decimals addr = .ok d →
      (formatRewardDisplay env raw rt addr numWinners ids).1 =
        formatUnits raw (if addr = zeroAddress then 18 else d) ++ " " ++
          "Tokens") ∧
    (∀ ed es, env.decimals addr = .error ed → env.symbol addr = .error es →
      (formatRewardDisplay env raw rt addr numWinners ids).1 =
        formatUnits raw 18 ++ " " ++ "Tokens" ∧
      (formatEntryFeeDisplay env raw true rt addr).1 =
        (if raw = 0 then "Free"
         else formatUnits raw 18 ++ " " ++ "Tokens")) := by
  have hdec : ∀ ed, env.decimals addr = .error ed →
      (getTokenDecimals env addr).1 = 18 := by
    intro ed hd
    unfold getTokenDecimals
    split
    · rfl
    · rw [hd]
  have hsym : ∀ es, env.symbol addr = .error es →
      (fetchSymbolWithDefault env addr).1 = "Tokens" := by
    intro es hs
    unfold fetchSymbolWithDefault
    rw [hs]
  refine ⟨hdec, hsym, ?_, ?_⟩
  · intro es d hs hd
    have hdec2 : (getTokenDecimals env addr).1 =
        (if addr = zeroAddress then 18 else d) := by
      unfold getTokenDecimals
      split
      · rfl
      · rw [hd]
    rcases hrt with h | h <;> subst h <;>
      simp [formatRewardDisplay, hdec2, hsym es hs]
  · intro ed es hd hs
    constructor
    · rcases hrt with h | h <;> subst h <;>
        simp [formatRewardDisplay, hdec ed hd, hsym es hs]
    · by_cases h0 : raw = 0
      · rcases hrt with h | h <;> subst h <;>
          simp [formatEntryFeeDisplay, h0]
      · rcases hrt with h | h <;> subst h <;>
          simp [formatEntryFeeDisplay, h0, hdec ed hd, hsym es hs]

/-- Witness for C1 at a concrete failing environment. -/
theorem c1_witness :
    ((getTokenDecimals failTokenEnv "0xdead").1 = 18 ∧
      (fetchSymbolWithDefault failTokenEnv "0xdead").1 = "Tokens") ∧
    (formatRewardDisplay failTokenEnv 5 .ERC20 "0xdead" 1 []).1 =
      formatUnits 5 18 ++ " " ++ "Tokens" ∧
    (formatEntryFeeDisplay failTokenEnv 5 true .ERC20 "0xdead").1 =
      (if 5 = 0 then "Free" else formatUnits 5 18 ++ " " ++ "Tokens") :=
  have h := c1_formatter_defaults_on_lookup_failure failTokenEnv "0xdead"
    5 1 [] .ERC20 (Or.inr rfl)
  have h4 := h.2.2.2 "read reverted" "read reverted" rfl rfl
  ⟨⟨h.1 "read reverted" rfl, h.2.1 "read reverted" rfl⟩, h4.1, h4.2⟩

/-- C2: whenever the connected wallet address equals the drop's host
address after canonicalisation, `joinDrop` exits through one of its local
guard paths (a toast error) and its remote trace is empty: neither the
token `approve` nor the `joinDrop` write is submitted. -/
theorem c2_host_join_rejected_locally (ctx : JoinCtx) (env : JoinEnv)
    (di : DropRecord) (hdi : ctx.dropInfo = some di)
    (hh : getAddress di.host = getAddress ctx.address) :
    (∃ m, (joinDrop ctx env).1 = .localError m) ∧
    (joinDrop ctx env).2 = [] := by
  unfold joinDrop
  split
  · exact ⟨⟨_, rfl⟩, rfl⟩
  · rename_i hgate
    rw [hdi]
    have haddr : ctx.address ≠ "" := by
      intro h
      exact hgate (by simp [h])
    have hhost : di.host ≠ "" := by
      intro h
      rw [h] at hh
      exact haddr (eq_empty_of_getAddress_eq_empty hh.symm)
    simp only []
    split
    · exact ⟨⟨_, rfl⟩, rfl⟩
    · split
      · exact ⟨⟨_, rfl⟩, rfl⟩
      · split
        · exact ⟨⟨_, rfl⟩, rfl⟩
        · split
          · exact ⟨⟨_, rfl⟩, rfl⟩
          · split
            · exact ⟨⟨_, rfl⟩, rfl⟩
            · split
              · exact ⟨⟨_, rfl⟩, rfl⟩
              · rename_i hguard
                exact absurd (by simp [hhost, hh]) hguard

/-- Witness for C2 at a concrete host-joins-own-drop state. -/
theorem c2_witness :
    (∃ m, (joinDrop c2Ctx okJoinEnv).1 = .localError m) ∧
    (joinDrop c2Ctx okJoinEnv).2 = [] :=
  c2_host_join_rejected_locally c2Ctx okJoinEnv c2Drop rfl (by decide)

/-- C5: when the cached drop has fewer participants than required winners,
`selectWinnersManually` fails locally (either the wallet gate's early
return or the thrown "Not enough participants.") and its remote trace is
empty: the `selectWinnersManually` write is never submitted. -/
theorem c5_select_winners_rejected_locally (ctx : JoinCtx) (env : SelEnv)
    (di : DropRecord) (hdi : ctx.dropInfo = some di)
    (h : di.currentParticipants < di.numWinners) :
    ((selectWinnersManually ctx env).1 = .earlyReturn ∨
      (selectWinnersManually ctx env).1 = .thrown "Not enough participants.") ∧
    (selectWinnersManually ctx env).2 = [] := by
  unfold selectWinnersManually
  split
  · exact ⟨Or.inl rfl, rfl⟩
  · rw [hdi]
    simp only []
    rw [if_pos h]
    exact ⟨Or.inr rfl, rfl⟩

/-- Witness for C5 at a concrete under-filled drop. -/
theorem c5_witness :
    ((selectWinnersManually c5Ctx okSelEnv).1 = .earlyReturn ∨
      (selectWinnersManually c5Ctx okSelEnv).1 =
        .thrown "Not enough participants.") ∧
    (selectWinnersManually c5Ctx okSelEnv).2 = [] :=
  c5_select_winners_rejected_locally c5Ctx okSelEnv c5Drop rfl (by decide)

/-- C6: a fetched drop that is sponsored, whose sponsor is still the zero
sentinel, and which is marked active makes the snapshot fetcher surface
the distinct "Unfunded sponsored game" error, navigate away to
"/available", and store no drop record. -/
theorem c6_unfunded_sponsored_rejected (env : FetchEnv) (id : Nat)
    (t : DropTuple) (hok : env.dropInfo = .ok t)
    (hsp : t.isSponsored = true) (hz : t.sponsor = zeroAddress)
    (ha : t.isActive = true) :
    (fetchAndSetDropInfo env id).error = some "Unfunded sponsored game" ∧
    (fetchAndSetDropInfo env id).navigatedTo = some "/available" ∧
    (fetchAndSetDropInfo env id).dropSet = none := by
  unfold fetchAndSetDropInfo
  rw [hok]
  simp [hsp, hz, ha]

/-- Witness for C6 at the concrete unfunded sponsored drop. -/
theorem c6_witness :
    (fetchAndSetDropInfo c6Env 3).error = some "Unfunded sponsored game" ∧
    (fetchAndSetDropInfo c6Env 3).navigatedTo = some "/available" ∧
    (fetchAndSetDropInfo c6Env 3).dropSet = none :=
  c6_unfunded_sponsored_rejected c6Env 3 c6Tuple rfl rfl rfl rfl

/-- C9: for every input, the entry-fee formatter answers exactly "Free"
with an empty remote trace (no remote read at all) whenever the drop is
not paid-entry or the raw fee amount is zero. -/
theorem c9_free_entry_no_remote_read (env : TokenEnv) (raw : Nat)
    (isPaidEntry : Bool) (rt : RewardType) (addr : String)
    (h : isPaidEntry = false ∨ raw = 0) :
    formatEntryFeeDisplay env raw isPaidEntry rt addr = ("Free", []) := by
  unfold formatEntryFeeDisplay
  rcases h with h | h <;> simp [h]

/-- Witness for C9 at a concrete zero-fee paid drop. -/
theorem c9_witness :
    formatEntryFeeDisplay failTokenEnv 0 true .ERC20 "0xdead" = ("Free", []) :=
  c9_free_entry_no_remote_read failTokenEnv 0 true .ERC20 "0xdead" (Or.inr rfl)


/-- The profile-fetch trace never contains a notification-send call. -/
theorem fetchProfiles_no_send (env : NotifEnv) (addrs : List String) :
    ((fetchFarcasterProfiles env addrs).2.all fun c => !c.isNeynarSend) =
      true := by
  unfold fetchFarcasterProfiles
  split
  · rfl
  · split
    · rfl
    · rfl

/-- A key whose directory entry has no truthy fid also has none through
the restricted profile map returned by the bulk fetch. -/
theorem fetchProfiles_fidTruthy_none (env : NotifEnv) (addrs : List String)
    (k : String) (h : fidTruthy (env.profileDirectory k) = none) :
    fidTruthy ((fetchFarcasterProfiles env addrs).1 k) = none := by
  unfold fetchFarcasterProfiles
  split
  · rfl
  · split
    · rfl
    · simp only []
      split
      · exact h
      · rfl

/-- The winners-selected case with no resolvable FID reports failure with
an unchanged trace (in particular, no notification-send call of its own). -/
theorem hnWinnersSelected_zero (env : NotifEnv) (nd : NotificationData)
    (profiles : String → Option Profile) (acc : List RemoteCall)
    (hfid : ∀ a ∈ (nd.winnerAddresses).getD [],
      fidTruthy (profiles (getAddress a)) = none) :
    (hnWinnersSelected env nd profiles acc).1.success = false ∧
    (hnWinnersSelected env nd profiles acc).2 = acc := by
  unfold hnWinnersSelected
  cases hws : nd.winnerAddresses with
  | none => exact ⟨rfl, rfl⟩
  | some ws =>
      simp only []
      split
      · exact ⟨rfl, rfl⟩
      · rw [if_pos]
        · exact ⟨rfl, rfl⟩
        · refine List.filterMap_eq_nil_iff.mpr ?_
          intro a ha
          exact hfid a (by simp [hws, ha])

/-- The category switch sends winners-selected requests to
`hnWinnersSelected`. -/
theorem hnDispatch_winners (env : NotifEnv) (nd : NotificationData)
    (profiles : String → Option Profile) (acc : List RemoteCall)
    (hcat : nd.category = "winners-selected") :
    hnDispatch env nd profiles acc = hnWinnersSelected env nd profiles acc := by
  unfold hnDispatch
  rw [hcat]
  rw [if_neg (by decide), if_neg (by decide), if_neg (by decide),
    if_neg (by decide), if_pos rfl]

/-- The notification body on a winners-selected request with no
resolvable FID: failure result, no notification-send call. -/
theorem handleNotificationBody_zero_fids (env : NotifEnv)
    (nd : NotificationData) (hcat : nd.category = "winners-selected")
    (hfid : ∀ a ∈ (nd.winnerAddresses).getD [],
      fidTruthy (env.profileDirectory (getAddress a)) = none) :
    (handleNotificationBody env nd).1.success = false ∧
    ((handleNotificationBody env nd).2.all fun c => !c.isNeynarSend) =
      true := by
  unfold handleNotificationBody
  split
  · exact ⟨rfl, rfl⟩
  · simp only []
    rw [hnDispatch_winners _ _ _ _ hcat]
    have h1 := hnWinnersSelected_zero env nd
      (fetchFarcasterProfiles env (hnAddresses nd)).1
      (fetchFarcasterProfiles env (hnAddresses nd)).2
      (fun a ha => fetchProfiles_fidTruthy_none env _ _ (hfid a ha))
    refine ⟨h1.1, ?_⟩
    rw [h1.2]
    exact fetchProfiles_no_send env _

/-- C3: a winners-selected dispatch in which none of the supplied winner
addresses resolves to a truthy numeric FID returns a structured
`{success:false, message}` value and never calls the notification-send
API (every call in its trace is a non-send call). -/
theorem c3_zero_fids_no_send (env : NotifEnv) (nd : NotificationData)
    (hcat : nd.category = "winners-selected")
    (hfid : ∀ a ∈ (nd.winnerAddresses).getD [],
      fidTruthy (env.profileDirectory (getAddress a)) = none) :
    (handleNotificationLogic env nd).1.success = false ∧
    ((handleNotificationLogic env nd).2.all fun c => !c.isNeynarSend) =
      true := by
  unfold handleNotificationLogic
  split
  · exact handleNotificationBody_zero_fids env _ hcat hfid
  · exact handleNotificationBody_zero_fids env _ hcat hfid

/-- Witness for C3 at a concrete unresolvable winner. -/
theorem c3_witness :
    (handleNotificationLogic c3Env c3Data).1.success = false ∧
    ((handleNotificationLogic c3Env c3Data).2.all fun c =>
      !c.isNeynarSend) = true :=
  c3_zero_fids_no_send c3Env c3Data rfl (by decide)

/-- C4 (code defect): processing the join flow's `game-joined` payload,
the dispatched audience is `[9]` — the participant's FID only — even
though the host also resolves to FID 7 in the identity directory, because
the payload carries no `hostAddress`.  The spec requires host +
participant. -/
theorem c4_joined_audience_misses_host :
    (handleNotificationLogic c4Env c4Payload).2 =
      [.profileFetch [c4PartAddr], .neynarSend [9]] ∧
    (handleNotificationLogic c4Env c4Payload).1.success = true ∧
    fidTruthy (c4Env.profileDirectory c4HostAddr) = some 7 := by
  decide

/-- C7 counterexample to the claim as stated: with the participant list
`["0xaa", "0xaa"]` (a duplicated address) and winner `"0xAA"`, index 1
satisfies "normalized address equals some winner's normalized address"
yet is NOT in the derived highlight set — `findIndex` keeps only the
first match. -/
theorem c7_counterexample :
    (1 < (["0xaa", "0xaa"] : List String).length ∧
      ∃ w ∈ (["0xAA"] : List String),
        getAddress ((["0xaa", "0xaa"] : List String).getD 1 "") =
          getAddress w) ∧
    1 ∉ deriveWinnerIndices ["0xAA"] ["0xaa", "0xaa"] := by
  decide

/-- C7 (amended): when the participants' canonical addresses are pairwise
distinct — which the join rules guarantee — the derived highlight set
contains exactly the participant indices whose canonical address equals
some winner's canonical address; and independently of any distinctness,
the raw winner list is stored unchanged in the assembled drop record. -/
theorem c7_highlight_indices (ws ps : List String) (i : Nat)
    (hnd : (ps.map getAddress).Nodup) :
    (i ∈ deriveWinnerIndices ws ps ↔
      i < ps.length ∧ ∃ w ∈ ws, getAddress (ps.getD i "") = getAddress w) ∧
    (∀ (env : FetchEnv) (id : Nat) (t : DropTuple) (r : DropRecord),
      env.dropInfo = .ok t → (fetchAndSetDropInfo env id).dropSet = some r →
      r.winners = t.winners) := by
  have hgetD : ∀ h : i < ps.length, ps.getD i "" = ps[i] := by
    intro h
    rw [List.getD_eq_getElem?_getD, List.getElem?_eq_getElem h]
    rfl
  constructor
  · unfold deriveWinnerIndices
    rw [List.mem_filterMap]
    constructor
    · rintro ⟨w, hw, hfind⟩
      obtain ⟨hlen, hpred, -⟩ := List.findIdx?_eq_some_iff_getElem.mp hfind
      refine ⟨hlen, w, hw, ?_⟩
      rw [hgetD hlen]
      exact of_decide_eq_true hpred
    · rintro ⟨hlen, w, hw, heq⟩
      rw [hgetD hlen] at heq
      refine ⟨w, hw, ?_⟩
      cases hfi : ps.findIdx? (fun p => getAddress p = getAddress w) with
      | none =>
          have hnone := (List.findIdx?_eq_none_iff.mp hfi) ps[i]
            (ps.getElem_mem hlen)
          rw [decide_eq_false_iff_not] at hnone
          exact absurd heq hnone
      | some j =>
          obtain ⟨hj, hpj, -⟩ := List.findIdx?_eq_some_iff_getElem.mp hfi
          have hji : j = i := by
            have h1 : getAddress ps[j] = getAddress w := of_decide_eq_true hpj
            have hjm : j < (ps.map getAddress).length := by simpa using hj
            have him : i < (ps.map getAddress).length := by simpa using hlen
            have hm : getElem (ps.map getAddress) j hjm =
                getElem (ps.map getAddress) i him := by
              rw [List.getElem_map, List.getElem_map]
              rw [h1, heq]
            exact hnd.getElem_inj_iff.mp hm
          exact congrArg Option.some hji
  · intro env id t r hok hset
    unfold fetchAndSetDropInfo at hset
    rw [hok] at hset
    simp only [] at hset
    split at hset
    · exact absurd hset (by simp)
    · split at hset
      · exact absurd hset (by simp)
      · simp only [Option.some.injEq] at hset
        rw [← hset]

/-- Witness for the amended C7 at concrete distinct participants. -/
theorem c7_witness :
    (0 ∈ deriveWinnerIndices ["0xAA"] ["0xaa", "0xbb"] ↔
      0 < (["0xaa", "0xbb"] : List String).length ∧
        ∃ w ∈ (["0xAA"] : List String),
          getAddress ((["0xaa", "0xbb"] : List String).getD 0 "") =
            getAddress w) ∧
    (∀ (env : FetchEnv) (id : Nat) (t : DropTuple) (r : DropRecord),
      env.dropInfo = .ok t → (fetchAndSetDropInfo env id).dropSet = some r →
      r.winners = t.winners) :=
  c7_highlight_indices ["0xAA"] ["0xaa", "0xbb"] 0 (by decide)

/-- C8 counterexample to the claim as stated: when reading
`dist/index.html` itself throws, the handler answers 500 ("Critical
error serving fallback"), not the unmodified page — both on a valid and
on a malformed drop-id parameter. -/
theorem c8_counterexample :
    (handler c8FailEnv (some "1")).1.status = 500 ∧
    (handler c8FailEnv (some "abc")).1.status = 500 := by
  decide

/-- C8 (amended): provided the static page is readable, a request whose
drop-id parameter is not a non-empty digit string is answered with the
unmodified page and an empty remote trace (no remote read), and every
request — whatever the drop read or token reads do — is answered with
status 200, never an error. -/
theorem c8_fallback_when_page_readable (env : FrameEnv) (q : Option String)
    (page : String) (hidx : env.indexHtml = .ok page) :
    (¬isValidDropIdParam q = true →
      handler env q = ({ status := 200, body := page }, [])) ∧
    (handler env q).1.status = 200 := by
  constructor
  · intro hq
    unfold handler
    rw [if_pos hq]
    unfold serveOriginalIndex
    rw [hidx]
  · unfold handler
    split
    · unfold serveOriginalIndex
      rw [hidx]
    · simp [hidx]

/-- Witness for the amended C8 at a concrete readable page and a
malformed drop id. -/
theorem c8_witness :
    (handler c8OkEnv (some "abc") =
      ({ status := 200, body := "<html><head></head></html>" }, [])) ∧
    (handler c8OkEnv (some "abc")).1.status = 200 :=
  ⟨(c8_fallback_when_page_readable c8OkEnv (some "abc")
      "<html><head></head></html>" rfl).1 (by decide),
   (c8_fallback_when_page_readable c8OkEnv (some "abc")
      "<html><head></head></html>" rfl).2⟩

/-- C10: local create-form validation passes only when
1 ≤ maxParticipants ≤ 100 and 1 ≤ numWinners ≤ min(3, maxParticipants-1)
(so in particular numWinners < maxParticipants for every created drop);
and whenever validation fails, the submit flow aborts with a local error
before issuing any remote call. -/
theorem c10_create_validation (ctx : SubmitCtx) (env : SubmitEnv) :
    (validateInputs ctx.form = true →
      ∃ p, jsParseInt ctx.form.maxParticipants = some p ∧
        1 ≤ p ∧ p ≤ 100 ∧ 1 ≤ ctx.form.numWinners ∧
        ctx.form.numWinners ≤ min 3 (p - 1)) ∧
    (validateInputs ctx.form = false →
      (handleSubmit ctx env).2 = [] ∧
      ∃ m, (handleSubmit ctx env).1 = .localError m) := by
  constructor
  · intro hv
    unfold validateInputs at hv
    split at hv
    · exact absurd hv (by simp)
    · rename_i p hp
      split at hv
      · exact absurd hv (by simp)
      · rename_i h1
        split at hv
        · exact absurd hv (by simp)
        · rename_i h2
          push_neg at h1 h2
          refine ⟨p, hp, ?_⟩
          omega
  · intro hv
    unfold handleSubmit
    split
    · exact ⟨rfl, _, rfl⟩
    · rw [if_pos (by simp [hv])]
      exact ⟨rfl, _, rfl⟩

/-- Witness for C10: the spec's end-to-end example form (fee 0.01, cap 10,
2 winners) passes with the bounds, and the same form with 4 winners is
rejected before any remote call. -/
theorem c10_witness :
    (∃ p, jsParseInt c10GoodCtx.form.maxParticipants = some p ∧
      1 ≤ p ∧ p ≤ 100 ∧ 1 ≤ c10GoodCtx.form.numWinners ∧
      c10GoodCtx.form.numWinners ≤ min 3 (p - 1)) ∧
    ((handleSubmit c10BadCtx c10Env).2 = [] ∧
      ∃ m, (handleSubmit c10BadCtx c10Env).1 = .localError m) :=
  ⟨(c10_create_validation c10GoodCtx c10Env).1 (by decide),
   (c10_create_validation c10BadCtx c10Env).2 (by decide)⟩
